import Mathlib

/-!
Shallow embedding of the nutanix-cluster-manager frontend core:
the category-polymorphic query/presentation engine of
`src/components/DataExplorer.tsx` (DataExplorer and ClusterManager),
the schema constants of `src/constants.ts`, and the service wrappers of
`src/services/nutanixService.ts`.

JavaScript scalars (string | number | boolean) are modelled by `Value`;
open string-keyed row objects by association lists; `undefined` field
access by `Option`; thrown exceptions by `Except`; the asynchronous fetch
lifecycle by an explicit event machine over an orchestrator state.
`localeCompare` is modelled as lexicographic comparison (a total order,
which is all the source relies on).
-/

namespace NCM

/-- A JavaScript scalar value as stored in a DataRow
(`string | number | boolean`, see src/types: `DataRow`). -/
inductive Value where
  | str (s : String)
  | num (n : Int)
  | bool (b : Bool)
deriving DecidableEq, Repr

/-- An open row object: a finite string-keyed map, first binding wins
(JS object property access). -/
abbrev DataRow := List (String × Value)

/-- Property access `row[key]` — `some v` when the property is present, `none` for
JS `undefined`. -/
def getField (row : DataRow) (key : String) : Option Value :=
  (row.find? (fun kv => kv.1 == key)).map (fun kv => kv.2)

/-- JavaScript truthiness of a possibly-undefined scalar
(`undefined`, `""`, `0`, `false` are falsy). -/
def isTruthy : Option Value → Bool
  | none => false
  | some (Value.str s) => !(s == "")
  | some (Value.num n) => !(n == 0)
  | some (Value.bool b) => b

/-- The four data categories (src/types: `Category`). -/
inductive Category where
  | VM
  | Hardware
  | Performance
  | Resources
deriving DecidableEq, Repr

/-- Constant `FIELD_DEFINITIONS` (src/constants.ts): per category the ordered
column schema as (key, label) pairs. -/
def FIELD_DEFINITIONS : Category → List (String × String)
  | Category.VM =>
    [("clusterName", "Cluster Name"), ("name", "VM Name"), ("uuid", "UUID"),
     ("powerState", "Power State"), ("macAddress", "MAC Address"),
     ("ipAddresses", "IP Addresses"), ("vDisk", "vDisk"),
     ("numVcpus", "vCPUs"), ("memoryMb", "Memory (MB)")]
  | Category.Hardware =>
    [("hostName", "Host Name"), ("serial", "Serial"), ("model", "Model"),
     ("cpuModel", "CPU Model"), ("numCores", "Cores"),
     ("memoryCapacity", "Memory (GB)"), ("blockSerial", "Block Serial"),
     ("disk", "Disk"), ("diskModel", "Disk Model")]
  | Category.Performance =>
    [("entityName", "Entity Name"), ("iops", "IOPS"),
     ("latency", "Latency (ms)"), ("bandwidth", "Bandwidth"),
     ("cpuUsage", "CPU Usage (%)"), ("memoryUsage", "Memory Usage (%)")]
  | Category.Resources =>
    [("hostName", "Host name"), ("vmCount", "VM Count"),
     ("numaOver", "NUMA over"), ("metric1", "Metric 1"),
     ("metric2", "Metric 2"), ("metric3", "Metric 3"),
     ("metric4", "Metric 4"), ("result", "Result")]

/-- The keys of a category's column schema, in canonical order. -/
def fieldKeys (cat : Category) : List String :=
  (FIELD_DEFINITIONS cat).map (fun kv => kv.1)

/-- Constant `DEFAULT_FIELDS` (src/constants.ts): the default column selection per
category. -/
def DEFAULT_FIELDS : Category → List String
  | Category.VM => ["clusterName", "name", "powerState"]
  | Category.Hardware =>
    ["hostName", "serial", "model", "cpuModel", "numCores",
     "memoryCapacity", "disk"]
  | Category.Performance =>
    ["entityName", "iops", "bandwidth", "latency", "cpuUsage",
     "memoryUsage"]
  | Category.Resources =>
    ["hostName", "vmCount", "numaOver", "metric1", "metric2", "metric3",
     "metric4", "result"]

/-- Sort direction (`'asc' | 'desc'`). -/
inductive SortDir where
  | asc
  | desc
deriving DecidableEq, Repr

/-- JavaScript `String(v)` coercion of a scalar. -/
def jsString : Value → String
  | Value.str s => s
  | Value.num n => toString n
  | Value.bool b => if b then "true" else "false"

/-- ASCII lowering of one character (`toLowerCase`). -/
def lowerChar (c : Char) : Char :=
  if 65 ≤ c.toNat ∧ c.toNat ≤ 90 then Char.ofNat (c.toNat + 32) else c

/-- JavaScript `s.toLowerCase()`. -/
def lowerString (s : String) : String :=
  String.mk (s.data.map lowerChar)

/-- Lexicographic comparison of character sequences by code point. -/
def charListCompare : List Char → List Char → Int
  | [], [] => 0
  | [], _ :: _ => -1
  | _ :: _, [] => 1
  | a :: as, b :: bs =>
    if a.toNat < b.toNat then -1
    else if b.toNat < a.toNat then 1
    else charListCompare as bs

/-- JavaScript `a.localeCompare(b)` modelled as lexicographic comparison returning
the sign the sort callback relies on. -/
def strCompare (a b : String) : Int :=
  charListCompare a.data b.data

/-- The sort callback of `sortedData` (DataExplorer.tsx lines 126-148):
missing values first (return 1 / -1 before any direction handling),
numeric difference when both values are numbers, otherwise
case-insensitive string comparison, with `direction` choosing the
argument order of the value comparison. -/
def rowCompare (sortField : String) (dir : SortDir) (a b : DataRow) : Int :=
  match getField a sortField, getField b sortField with
  | none, _ => 1
  | some _, none => -1
  | some av, some bv =>
    match av, bv with
    | Value.num x, Value.num y =>
      if dir = SortDir.asc then x - y else y - x
    | _, _ =>
      let aStr := lowerString (jsString av)
      let bStr := lowerString (jsString bv)
      if dir = SortDir.asc then strCompare aStr bStr else strCompare bStr aStr

/-- Function `toggleField` (DataExplorer.tsx lines 102-108): remove the key when
present, otherwise append it at the end of the current selection. -/
def toggleField (key : String) (selected : List String) : List String :=
  if selected.contains key then selected.filter (fun f => !(f == key))
  else selected ++ [key]

/-- Function `toggleClusterExpansion` (DataExplorer.tsx lines 151-161): flip the
membership of a cluster name in the expanded set. -/
def toggleClusterExpansion (clusterName : String) (expanded : List String) :
    List String :=
  if expanded.contains clusterName then
    expanded.filter (fun n => !(n == clusterName))
  else clusterName :: expanded

/-- Membership test of `expandedClusters.has(parentCluster)` where the
stored `parentCluster` value is a scalar and the set holds strings. -/
def expandedHas (expanded : List String) : Option Value → Bool
  | some (Value.str s) => expanded.contains s
  | _ => false

/-- The row visibility test of the results table (DataExplorer.tsx lines
607-617): a row is skipped exactly when the category is Performance, its
`entityType` is `host`, its `parentCluster` is truthy, and that parent is
not in the expanded set. -/
def rowVisible (cat : Category) (expanded : List String) (row : DataRow) :
    Bool :=
  let isHostRow := cat == Category.Performance &&
    getField row "entityType" == some (Value.str "host")
  let parentCluster := if isHostRow then getField row "parentCluster" else none
  !(isHostRow && isTruthy parentCluster && !(expandedHas expanded parentCluster))

/-- The rendered (visible) rows, in the order of the input sequence. -/
def visibleRows (cat : Category) (expanded : List String)
    (rows : List DataRow) : List DataRow :=
  rows.filter (rowVisible cat expanded)

/-- The reactive state of `DataExplorer` (DataExplorer.tsx lines 12-33),
one field per `useState` hook. -/
structure ExplorerState where
  category : Category
  selectedFields : List String
  data : List DataRow
  loading : Bool
  startTime : String
  endTime : String
  intervalSecs : Int
  aggregationType : String
  ratioVal : Int
  rfVal : Int
  cvmVcore : Int
  cvmMemory : Int
  sortField : Option String
  sortDirection : SortDir
  expandedClusters : List String
deriving DecidableEq, Repr

/-- The initial `useState` values of `DataExplorer`. -/
def initExplorerState : ExplorerState :=
  { category := Category.VM
  , selectedFields := DEFAULT_FIELDS Category.VM
  , data := []
  , loading := false
  , startTime := ""
  , endTime := ""
  , intervalSecs := 30
  , aggregationType := "average"
  , ratioVal := 3
  , rfVal := 2
  , cvmVcore := 0
  , cvmMemory := 0
  , sortField := none
  , sortDirection := SortDir.asc
  , expandedClusters := [] }

/-- Transition `setCategory` followed by the category-change `useEffect`
(DataExplorer.tsx lines 36-59): reset the field selection to the
category's defaults, clear the data, and — for Performance only — seed
the time window (the formatted one-hour-ago/now strings are inputs here)
and set the interval back to 30. No other state is touched. -/
def setCategoryEffect (cat : Category) (windowStart windowEnd : String)
    (s : ExplorerState) : ExplorerState :=
  let s1 := { s with category := cat
                   , selectedFields := DEFAULT_FIELDS cat
                   , data := [] }
  if cat = Category.Performance then
    { s1 with startTime := windowStart, endTime := windowEnd
            , intervalSecs := 30 }
  else s1

/-- The auto-fetch `useEffect` guard (DataExplorer.tsx lines 95-100):
a fetch fires automatically only for a verified cluster in a category
other than Performance and Resources. -/
def autoFetchTriggers (isVerified : Bool) (cat : Category) : Bool :=
  isVerified && !(cat == Category.Performance) && !(cat == Category.Resources)

/-- The early-return validation guard of `loadData` (DataExplorer.tsx
lines 63-70): blocked when Performance lacks a time bound or Resources
has a falsy ratio or replication factor. -/
def loadGuardBlocks (s : ExplorerState) : Bool :=
  (s.category == Category.Performance &&
    (s.startTime == "" || s.endTime == "")) ||
  (s.category == Category.Resources &&
    (s.ratioVal == 0 || s.rfVal == 0))

/-- The eventual result of one `fetchData` call. -/
inductive FetchOutcome where
  | success (rows : List DataRow)
  | failure (msg : String)
deriving DecidableEq, Repr

/-- Explorer state together with the outstanding asynchronous fetches
(request id paired with the response the service will eventually
deliver). -/
structure AsyncState where
  st : ExplorerState
  inFlight : List (Nat × FetchOutcome)
deriving DecidableEq, Repr

/-- Invoking `loadData` (DataExplorer.tsx lines 61-92) up to its await
point: if the validation guard blocks, nothing happens; otherwise
`setLoading(true)` and the request becomes outstanding. -/
def startFetch (id : Nat) (out : FetchOutcome) (a : AsyncState) : AsyncState :=
  if loadGuardBlocks a.st then a
  else { st := { a.st with loading := true }
       , inFlight := a.inFlight ++ [(id, out)] }

/-- The continuation of `loadData` after its await resolves: on success
`setData(result)`, on failure an alert leaving `data` unchanged, and in
both cases `setLoading(false)` in the `finally` block. The response is
applied unconditionally — the source keeps no fetch generation and
performs no staleness check before `setData`. -/
def deliver (id : Nat) (a : AsyncState) : AsyncState :=
  match a.inFlight.find? (fun r => r.1 == id) with
  | none => a
  | some req =>
    let rest := a.inFlight.filter (fun r => !(r.1 == id))
    match req.2 with
    | FetchOutcome.success rows =>
      { st := { a.st with data := rows, loading := false }, inFlight := rest }
    | FetchOutcome.failure _ =>
      { st := { a.st with loading := false }, inFlight := rest }

/-- A saved connection preset (ClusterManager state, DataExplorer.tsx
line 683). -/
structure Preset where
  id : String
  presetType : String
  ip : String
  username : String
  password : String
  apiVersion : Option String
deriving DecidableEq, Repr

/-- What `localStorage.getItem('clusterPresets')` can hold: nothing, a
string that `JSON.parse` accepts (classified by the presets it denotes),
or a string on which `JSON.parse` throws. -/
inductive StoredContent where
  | absent
  | wellFormed (presets : List Preset)
  | malformed (raw : String)
deriving DecidableEq, Repr

/-- The presets-load `useEffect` (DataExplorer.tsx lines 688-693):
`getItem` returning null is skipped (the presets state keeps its `[]`
initial value); a non-null value goes straight through `JSON.parse` with
no try/catch, so a malformed store makes the parse exception propagate
out of the effect (modelled as `Except.error`). -/
def loadPresets : StoredContent → Except String (List Preset)
  | StoredContent.absent => Except.ok []
  | StoredContent.wellFormed ps => Except.ok ps
  | StoredContent.malformed raw =>
    Except.error ("SyntaxError: JSON.parse: " ++ raw)

/-- A registered cluster connection (src/types: `ClusterConfig`). -/
structure ClusterConfig where
  id : String
  name : String
  ip : String
  username : String
  password : String
  clusterType : String
  apiVersion : String
  isVerified : Bool
deriving DecidableEq, Repr

/-- The not-yet-verified `clusterToAdd` built from a preset inside
`connectSelectedPresets` (DataExplorer.tsx lines 939-948). -/
def presetToCluster (tempId : String) (p : Preset) : ClusterConfig :=
  { id := tempId
  , name := if p.presetType == "PE" then "Prism Element" else "Prism Central"
  , ip := p.ip
  , username := p.username
  , password := p.password
  , clusterType := p.presetType
  , apiVersion := p.apiVersion.getD "v2.0"
  , isVerified := false }

/-- The external verification service (`verifyClusterConnection`):
resolved cluster name on success, error message on failure. -/
abbrev Verify := Preset → Except String String

/-- The sequential loop of `connectSelectedPresets` (DataExplorer.tsx
lines 937-962): each candidate is verified independently in order; a
success is appended to the connection set immediately (before the next
candidate is attempted) and its ip recorded; a failure records
(ip, message) and the loop continues. Returns the appended clusters, the
success ips, and the itemized failures, all in candidate order. -/
def runBatch (verify : Verify) (freshId : Nat → String) :
    List Preset → Nat →
    List ClusterConfig × List String × List (String × String)
  | [], _ => ([], [], [])
  | p :: rest, idx =>
    match verify p with
    | Except.ok clusterName =>
      let c := { presetToCluster (freshId idx) p with
                   name := clusterName, isVerified := true }
      let r := runBatch verify freshId rest (idx + 1)
      (c :: r.1, p.ip :: r.2.1, r.2.2)
    | Except.error msg =>
      let r := runBatch verify freshId rest (idx + 1)
      (r.1, r.2.1, (p.ip, msg) :: r.2.2)

/-- The reactive state of `ClusterManager` relevant to the batch
workflow. -/
structure ManagerState where
  clusters : List ClusterConfig
  presets : List Preset
  selectedPresets : List String
  verifying : Bool
  errorMsg : Option String
  modalOpen : Bool
deriving DecidableEq, Repr

/-- The presets currently selected for batch connection
(`presets.filter(p => selectedPresets.has(p.id))`). -/
def selectedOf (s : ManagerState) : List Preset :=
  s.presets.filter (fun p => s.selectedPresets.contains p.id)

/-- The aggregated outcome notice shown when any candidate failed
(DataExplorer.tsx line 968). -/
def formatBatchError (successCount : Nat)
    (failures : List (String × String)) : String :=
  "Successfully connected: " ++ toString successCount ++
  "\n\nFailed connections:\n" ++
  String.intercalate "\n"
    (failures.map (fun f => "• " ++ f.1 ++ ": " ++ f.2))

/-- Function `connectSelectedPresets` (DataExplorer.tsx lines 927-975): run the
batch over the selected presets; if any candidate failed, surface the
aggregated report and keep the selection (and the modal); if all
succeeded, clear the selection and close the modal. -/
def connectSelectedPresets (verify : Verify) (freshId : Nat → String)
    (s : ManagerState) : ManagerState :=
  let sel := selectedOf s
  if sel.length == 0 then s
  else
    let r := runBatch verify freshId sel 0
    let s1 := { s with clusters := s.clusters ++ r.1
                     , verifying := false
                     , errorMsg := none }
    if 0 < r.2.2.length then
      { s1 with errorMsg := some (formatBatchError r.2.1.length r.2.2) }
    else
      { s1 with selectedPresets := [], modalOpen := false }

/-- The single-target input form of `ClusterManager` (`newCluster`). -/
structure FormState where
  ip : String
  username : String
  password : String
  formType : String
  apiVersion : Option String
deriving DecidableEq, Repr

/-- What `handleAddCluster` decides to do. -/
inductive AddAction where
  | batchConnect (candidates : List Preset)
  | validationError (msg : String)
  | policyReject (msg : String)
  | singleVerify (candidate : ClusterConfig)
deriving DecidableEq, Repr

/-- The dispatch of `handleAddCluster` (DataExplorer.tsx lines 712-743):
with two or more selected presets it goes straight to the batch path,
before the required-fields check and before the v4.0 policy gate; only
the single-target path validates fields and rejects `v4.0`. -/
def handleAddCluster (s : ManagerState) (form : FormState)
    (tempId : String) : AddAction :=
  if 2 ≤ s.selectedPresets.length then
    AddAction.batchConnect (selectedOf s)
  else if form.ip == "" || form.username == "" || form.password == "" then
    AddAction.validationError "All fields are required."
  else if form.apiVersion == some "v4.0" then
    AddAction.policyReject "We are planning to update."
  else
    AddAction.singleVerify
      { id := tempId
      , name := if form.formType == "PE" then "Prism Element"
                else "Prism Central"
      , ip := form.ip
      , username := form.username
      , password := form.password
      , clusterType := form.formType
      , apiVersion := form.apiVersion.getD "v2.0"
      , isVerified := false }

/-- The fixed CPU column list of the Resources export (DataExplorer.tsx
line 178). -/
def cpuFieldsFixed : List String :=
  ["hostName", "vmCount", "numaOver", "pCore", "useVCore",
   "recommendVcoreRatio", "currentVcoreRatio", "result"]

/-- The fixed CPU column labels of the Resources export (DataExplorer.tsx
lines 179-188). -/
def cpuFieldLabelsFixed : List (String × String) :=
  [("hostName", "Host name"), ("vmCount", "VM Count"),
   ("numaOver", "NUMA over"), ("pCore", "pCore"),
   ("useVCore", "Use vCore"),
   ("recommendVcoreRatio", "Recommend vcore Ratio"),
   ("currentVcoreRatio", "Current vcore Ratio"), ("result", "Result")]

/-- The fixed Memory column list of the Resources export
(DataExplorer.tsx line 191). -/
def memoryFieldsFixed : List String :=
  ["hostName", "vmCount", "numaOver", "memoryGiB", "useMemoryGiB",
   "recommendUse", "availableMemory", "result"]

/-- The fixed Memory column labels of the Resources export
(DataExplorer.tsx lines 192-201). -/
def memoryFieldLabelsFixed : List (String × String) :=
  [("hostName", "Host name"), ("vmCount", "VM Count"),
   ("numaOver", "NUMA over"), ("memoryGiB", "Memory(GiB)"),
   ("useMemoryGiB", "Use Memory(GiB) =(A)"),
   ("recommendUse", "Recommend Use =(B)"),
   ("availableMemory", "Available memory (B-A)"), ("result", "Result")]

/-- The JSON body posted to the export sink (`/api/export-xlsx`). The
Resources-only members are `[]`/`false` in the single-table shape, where
the source omits them. -/
structure ExportRequest where
  rows : List DataRow
  fields : List String
  fieldLabels : List (String × String)
  filename : String
  isResources : Bool
  cpuData : List DataRow
  memoryData : List DataRow
  cpuFields : List String
  memoryFields : List String
  cpuFieldLabels : List (String × String)
  memoryFieldLabels : List (String × String)
deriving DecidableEq, Repr

/-- Expression `actualClusterName` (DataExplorer.tsx line 170):
`(data[0]?.clusterName as string) || cluster.name || cluster.ip`. -/
def actualClusterName (data : List DataRow) (nameProp ipProp : String) :
    String :=
  let v : Option Value :=
    match data with
    | [] => none
    | r :: _ => getField r "clusterName"
  if isTruthy v then
    match v with
    | some w => jsString w
    | none => ipProp
  else if !(nameProp == "") then nameProp
  else ipProp

/-- The category name as interpolated into the export filename. -/
def categoryName : Category → String
  | Category.VM => "VM"
  | Category.Hardware => "Hardware"
  | Category.Performance => "Performance"
  | Category.Resources => "Resources"

/-- The `fieldLabels` map of the single-table export (DataExplorer.tsx
lines 236-240): each selected field mapped to its schema label, falling
back to the raw key. -/
def mkFieldLabels (cat : Category) (selectedFields : List String) :
    List (String × String) :=
  selectedFields.map (fun f =>
    (f, match (FIELD_DEFINITIONS cat).find? (fun d => d.1 == f) with
        | some d => d.2
        | none => f))

/-- Function `exportToXLSX` (DataExplorer.tsx lines 165-253) up to the request it
posts: `none` when the data is empty; for Resources, partition the rows
by the `table` discriminator into CPU and Memory subsets and emit the
dual-table request tagged `isResources` with the fixed column lists and
labels; otherwise emit the single-table request over the currently
selected fields. The date string is an input (`isoDate`). -/
def exportRequest (s : ExplorerState) (nameProp ipProp isoDate : String) :
    Option ExportRequest :=
  if s.data.length == 0 then none
  else
    let fname := actualClusterName s.data nameProp ipProp ++ "_" ++
      categoryName s.category ++ "_" ++ isoDate
    if s.category == Category.Resources then
      let cpuData :=
        s.data.filter (fun r => getField r "table" == some (Value.str "CPU"))
      let memoryData :=
        s.data.filter (fun r => getField r "table" == some (Value.str "Memory"))
      some { rows := cpuData ++ memoryData
           , fields := if 0 < cpuData.length then cpuFieldsFixed
                       else memoryFieldsFixed
           , fieldLabels := if 0 < cpuData.length then cpuFieldLabelsFixed
                            else memoryFieldLabelsFixed
           , filename := fname
           , isResources := true
           , cpuData := cpuData
           , memoryData := memoryData
           , cpuFields := cpuFieldsFixed
           , memoryFields := memoryFieldsFixed
           , cpuFieldLabels := cpuFieldLabelsFixed
           , memoryFieldLabels := memoryFieldLabelsFixed }
    else
      some { rows := s.data
           , fields := s.selectedFields
           , fieldLabels := mkFieldLabels s.category s.selectedFields
           , filename := fname
           , isResources := false
           , cpuData := []
           , memoryData := []
           , cpuFields := []
           , memoryFields := []
           , cpuFieldLabels := []
           , memoryFieldLabels := [] }

/-! ## Helper lemmas -/

/-- Whether a scalar is a JS number. -/
def Value.isNum : Value → Bool
  | Value.num _ => true
  | _ => false

theorem charListCompare_swap :
    ∀ as bs : List Char, charListCompare bs as = -charListCompare as bs
  | [], [] => by simp [charListCompare]
  | [], _ :: _ => by simp [charListCompare]
  | _ :: _, [] => by simp [charListCompare]
  | a :: as, b :: bs => by
    simp only [charListCompare]
    by_cases h1 : a.toNat < b.toNat
    · have h2 : ¬ b.toNat < a.toNat := Nat.lt_asymm h1
      simp [h1, h2]
    · by_cases h2 : b.toNat < a.toNat
      · simp [h1, h2]
      · simp [h1, h2, charListCompare_swap as bs]

theorem strCompare_swap (a b : String) : strCompare b a = -strCompare a b :=
  charListCompare_swap a.data b.data

/-! ## Claim C6 -/

/-- Claim C6 (confirmed): for every pair of rows, sort field and
direction, the comparator ranks a row whose value for the field is
missing after a row that has one, for both ascending and descending
direction; two numeric values are compared numerically (signed
difference, direction-ordered); any other pair of present values is
compared case-insensitively as stringified text; and for present values
the direction flips the final ordering. -/
theorem rowCompare_spec (a b : DataRow) (f : String) :
    (getField a f = none → ∀ d : SortDir, 0 < rowCompare f d a b)
  ∧ (getField a f ≠ none → getField b f = none →
      ∀ d : SortDir, rowCompare f d a b < 0)
  ∧ (∀ x y : Int, getField a f = some (Value.num x) →
      getField b f = some (Value.num y) →
      rowCompare f SortDir.asc a b = x - y ∧
      rowCompare f SortDir.desc a b = y - x)
  ∧ (∀ av bv : Value, getField a f = some av → getField b f = some bv →
      (av.isNum && bv.isNum) = false →
      rowCompare f SortDir.asc a b
        = strCompare (lowerString (jsString av)) (lowerString (jsString bv)))
  ∧ (getField a f ≠ none → getField b f ≠ none →
      rowCompare f SortDir.desc a b = -rowCompare f SortDir.asc a b) := by
  refine ⟨?_, ?_, ?_, ?_, ?_⟩
  · intro h d
    simp [rowCompare, h]
  · intro ha hb d
    obtain ⟨av, hav⟩ := Option.ne_none_iff_exists'.mp ha
    simp [rowCompare, hav, hb]
  · intro x y hx hy
    simp [rowCompare, hx, hy]
  · intro av bv hav hbv hnum
    cases av <;> cases bv <;> simp_all [rowCompare, Value.isNum]
  · intro ha hb
    obtain ⟨av, hav⟩ := Option.ne_none_iff_exists'.mp ha
    obtain ⟨bv, hbv⟩ := Option.ne_none_iff_exists'.mp hb
    cases av <;> cases bv <;> simp [rowCompare, hav, hbv] <;>
      rw [strCompare_swap]

/-- Concrete instantiation of `rowCompare_spec`: a row missing the sort
field ranks after one carrying the value 5, in both directions, and two
numeric values compare by signed difference. -/
theorem rowCompare_spec_witness :
    0 < rowCompare "x" SortDir.asc [] [("x", Value.num 5)]
  ∧ 0 < rowCompare "x" SortDir.desc [] [("x", Value.num 5)]
  ∧ rowCompare "x" SortDir.asc [("x", Value.num 2)] [("x", Value.num 7)]
      = 2 - 7 :=
  ⟨(rowCompare_spec [] [("x", Value.num 5)] "x").1 rfl SortDir.asc,
   (rowCompare_spec [] [("x", Value.num 5)] "x").1 rfl SortDir.desc,
   ((rowCompare_spec [("x", Value.num 2)] [("x", Value.num 7)] "x").2.2.1
      2 7 rfl rfl).1⟩

/-! ## Claim C5 -/

/-- A Performance host row that carries no `parentCluster` value. -/
def hostRowNoParent : DataRow := [("entityType", Value.str "host")]

/-- A Performance cluster row named C1. -/
def clusterRowC1 : DataRow :=
  [("entityType", Value.str "cluster"), ("entityName", Value.str "C1")]

/-- A Performance host row under cluster C1. -/
def hostRowC1 : DataRow :=
  [("entityType", Value.str "host"), ("parentCluster", Value.str "C1")]

/-- Claim C5 fails as stated: a host row is claimed visible if and only
if its `parentEntityName` is a member of the expanded set, but a host
row carrying no parent value is rendered by the source even though no
parent of it is a member of the (empty) expanded set. -/
theorem rowVisible_counterexample :
    ¬ (rowVisible Category.Performance [] hostRowNoParent = true ↔
        expandedHas [] (getField hostRowNoParent "parentCluster") = true) := by
  decide

/-- Claim C5 (amended): in a Performance result set every row whose
`entityType` is not `host` (cluster rows and plain rows alike) is
visible; a host row with a nonempty string parent is visible exactly
when that parent is a member of the expanded set; a host row with an
absent parent is visible; visibility is a pure filter preserving the
input (post-sort) order; and `toggleClusterExpansion` flips membership
of a name in the expanded set. -/
theorem visibleRows_spec (expanded : List String) (row : DataRow)
    (rows : List DataRow) :
    (getField row "entityType" ≠ some (Value.str "host") →
        rowVisible Category.Performance expanded row = true)
  ∧ (∀ p : String, getField row "entityType" = some (Value.str "host") →
        getField row "parentCluster" = some (Value.str p) → p ≠ "" →
        rowVisible Category.Performance expanded row = expanded.contains p)
  ∧ (getField row "entityType" = some (Value.str "host") →
        getField row "parentCluster" = none →
        rowVisible Category.Performance expanded row = true)
  ∧ (visibleRows Category.Performance expanded rows).Sublist rows
  ∧ (row ∈ visibleRows Category.Performance expanded rows ↔
        row ∈ rows ∧ rowVisible Category.Performance expanded row = true)
  ∧ (∀ n : String, (toggleClusterExpansion n expanded).contains n
        = !(expanded.contains n)) := by
  refine ⟨?_, ?_, ?_, ?_, ?_, ?_⟩
  · intro h
    simp [rowVisible, h]
  · intro p hhost hparent hne
    have hp : (p == "") = false := beq_eq_false_iff_ne.mpr hne
    cases hc : expanded.contains p <;>
      simp_all [rowVisible, isTruthy, expandedHas]
  · intro hhost hparent
    simp [rowVisible, hhost, hparent, isTruthy]
  · exact List.filter_sublist rows
  · exact List.mem_filter
  · intro n
    by_cases h : expanded.contains n <;>
      simp_all [toggleClusterExpansion]

/-- Concrete instantiation of `visibleRows_spec`: the host row under C1
is invisible with nothing expanded, visible after one toggle of C1, and
invisible again after a second toggle; the cluster row is always
visible. -/
theorem visibleRows_spec_witness :
    rowVisible Category.Performance [] hostRowC1 = false
  ∧ rowVisible Category.Performance (toggleClusterExpansion "C1" [])
      hostRowC1 = true
  ∧ rowVisible Category.Performance
      (toggleClusterExpansion "C1" (toggleClusterExpansion "C1" []))
      hostRowC1 = false
  ∧ rowVisible Category.Performance [] clusterRowC1 = true := by
  refine ⟨?_, ?_, ?_, ?_⟩
  · have h := (visibleRows_spec [] hostRowC1 []).2.1 "C1" rfl rfl (by decide)
    simpa using h
  · have h := (visibleRows_spec (toggleClusterExpansion "C1" []) hostRowC1
      []).2.1 "C1" rfl rfl (by decide)
    simpa using h
  · have h := (visibleRows_spec
      (toggleClusterExpansion "C1" (toggleClusterExpansion "C1" []))
      hostRowC1 []).2.1 "C1" rfl rfl (by decide)
    simpa using h
  · exact (visibleRows_spec [] clusterRowC1 []).1 (by decide)

/-! ## Claim C4 -/

/-- Claim C4 fails as stated, starting from the VM category's default
selection: removing the default column `clusterName` and toggling it
back on appends it at the end, so the selection is no longer in the
category's canonical column order; and toggling a key that is not in the
schema is not a no-op — the key is appended to the selection. -/
theorem toggleField_counterexample :
    (toggleField "clusterName"
        (toggleField "clusterName" (DEFAULT_FIELDS Category.VM))
      ≠ (fieldKeys Category.VM).filter (fun k =>
          (toggleField "clusterName"
            (toggleField "clusterName" (DEFAULT_FIELDS Category.VM))).contains k))
  ∧ toggleField "zzz" (DEFAULT_FIELDS Category.VM)
      ≠ DEFAULT_FIELDS Category.VM
  ∧ ("zzz" ∈ toggleField "zzz" (DEFAULT_FIELDS Category.VM)
      ∧ "zzz" ∉ fieldKeys Category.VM) := by
  refine ⟨by decide, by decide, by decide, by decide⟩

/-- Claim C4 (amended): `toggleColumn` performs no schema validation and
keeps selection order, not canonical order — an absent key (on-schema or
not) is appended at the end, a present key is removed preserving the
relative order of the rest, so membership is flipped for the toggled key
only; the selection stays within the schema's keys only under the extra
assumption that every toggled key is in the schema. -/
theorem toggleField_spec (key : String) (sel : List String) :
    (sel.contains key = false → toggleField key sel = sel ++ [key])
  ∧ (sel.contains key = true →
      toggleField key sel = sel.filter (fun f => !(f == key)))
  ∧ (toggleField key sel).contains key = !(sel.contains key)
  ∧ (∀ k : String, ¬ k = key →
      (k ∈ toggleField key sel ↔ k ∈ sel))
  ∧ (∀ cat : Category, key ∈ fieldKeys cat →
      (∀ k ∈ sel, k ∈ fieldKeys cat) →
      ∀ k ∈ toggleField key sel, k ∈ fieldKeys cat) := by
  refine ⟨?_, ?_, ?_, ?_, ?_⟩
  · intro h
    simp_all [toggleField]
  · intro h
    simp_all [toggleField]
  · by_cases h : sel.contains key <;> simp_all [toggleField]
  · intro k hk
    by_cases h : sel.contains key <;> simp_all [toggleField]
  · intro cat hkey hsub k hk
    by_cases h : sel.contains key <;> simp_all [toggleField]
    rcases hk with hk | hk
    · exact hsub k hk
    · exact hk ▸ hkey

/-- Concrete instantiation of `toggleField_spec`: toggling `uuid` (an
on-schema, unselected VM column) appends it at the end of the default
selection, and toggling it again removes it. -/
theorem toggleField_spec_witness :
    toggleField "uuid" (DEFAULT_FIELDS Category.VM)
      = ["clusterName", "name", "powerState", "uuid"]
  ∧ toggleField "uuid" ["clusterName", "name", "powerState", "uuid"]
      = ["clusterName", "name", "powerState"] := by
  constructor
  · have h := (toggleField_spec "uuid" (DEFAULT_FIELDS Category.VM)).1
      (by decide)
    simpa using h
  · have h := (toggleField_spec "uuid"
      ["clusterName", "name", "powerState", "uuid"]).2.1 (by decide)
    simpa using h

/-! ## Claim C2 -/

/-- Claim C2 fails as stated: switching to Performance from a prior
state whose aggregation was `max` leaves the aggregation at `max`
(the category-change effect never touches it), and switching to
Resources from a prior state with ratio 5 leaves the ratio at 5 (the
Capacity parameters are initialized once at mount, never re-seeded). -/
theorem setCategory_counterexample :
    ((setCategoryEffect Category.Performance "2026-10-12T09:00"
        "2026-10-12T10:00"
        { initExplorerState with aggregationType := "max" }).aggregationType
      ≠ "average")
  ∧ ((setCategoryEffect Category.Resources "" ""
        { initExplorerState with ratioVal := 5 }).ratioVal ≠ 3) := by
  refine ⟨by decide, by decide⟩

/-- Claim C2 (amended): switching to Performance resets the column
selection to the Performance defaults, clears the result set, seeds the
one-hour window and sets the interval to 30 seconds, but keeps the prior
aggregation; switching to Resources resets the selection and clears the
result set while keeping the prior ratio, replication factor and
reservations; those retained parameters are seeded only by the initial
state (average, 3, 2, 0, 0); and no fetch is auto-triggered for
Performance or Resources — only explicit confirmation fetches them. -/
theorem setCategory_spec (s : ExplorerState) (ws we : String) :
    ((setCategoryEffect Category.Performance ws we s).selectedFields
        = DEFAULT_FIELDS Category.Performance
      ∧ (setCategoryEffect Category.Performance ws we s).data = []
      ∧ (setCategoryEffect Category.Performance ws we s).startTime = ws
      ∧ (setCategoryEffect Category.Performance ws we s).endTime = we
      ∧ (setCategoryEffect Category.Performance ws we s).intervalSecs = 30
      ∧ (setCategoryEffect Category.Performance ws we s).aggregationType
          = s.aggregationType)
  ∧ ((setCategoryEffect Category.Resources ws we s).selectedFields
        = DEFAULT_FIELDS Category.Resources
      ∧ (setCategoryEffect Category.Resources ws we s).data = []
      ∧ (setCategoryEffect Category.Resources ws we s).ratioVal = s.ratioVal
      ∧ (setCategoryEffect Category.Resources ws we s).rfVal = s.rfVal
      ∧ (setCategoryEffect Category.Resources ws we s).cvmVcore = s.cvmVcore
      ∧ (setCategoryEffect Category.Resources ws we s).cvmMemory
          = s.cvmMemory)
  ∧ (∀ v : Bool, autoFetchTriggers v Category.Performance = false
      ∧ autoFetchTriggers v Category.Resources = false)
  ∧ (initExplorerState.aggregationType = "average"
      ∧ initExplorerState.ratioVal = 3 ∧ initExplorerState.rfVal = 2
      ∧ initExplorerState.cvmVcore = 0
      ∧ initExplorerState.cvmMemory = 0) := by
  refine ⟨⟨rfl, rfl, rfl, rfl, rfl, rfl⟩, ⟨rfl, rfl, rfl, rfl, rfl, rfl⟩,
    ?_, ⟨rfl, rfl, rfl, rfl, rfl⟩⟩
  intro v
  cases v <;> exact ⟨rfl, rfl⟩

/-! ## Claim C3 -/

/-- Claim C3 fails as stated: on malformed stored content the load
effect does not surface an "invalid format" notice — the `JSON.parse`
failure propagates out of the effect uncaught. -/
theorem loadPresets_counterexample :
    (loadPresets (StoredContent.malformed "not-json")).isOk = false
  ∧ loadPresets (StoredContent.malformed "not-json")
      = Except.error "SyntaxError: JSON.parse: not-json" :=
  ⟨rfl, rfl⟩

/-- Claim C3 (amended): loading presets tolerates an absent store
(treated as the empty preset list) and passes well-formed content
through, but malformed stored content is not handled on the load path:
the parse failure propagates (the store-load effect has no try/catch and
produces no user-visible notice). -/
theorem loadPresets_spec (ps : List Preset) (raw : String) :
    loadPresets StoredContent.absent = Except.ok []
  ∧ loadPresets (StoredContent.wellFormed ps) = Except.ok ps
  ∧ loadPresets (StoredContent.malformed raw)
      = Except.error ("SyntaxError: JSON.parse: " ++ raw) :=
  ⟨rfl, rfl, rfl⟩

/-! ## Claim C1 -/

/-- The payload fetch g1 will deliver. -/
def g1Rows : List DataRow := [[("name", Value.str "g1-row")]]

/-- The payload fetch g2 will deliver. -/
def g2Rows : List DataRow := [[("name", Value.str "g2-row")]]

/-- The machine state after triggering fetch 1 and then fetch 2 while
fetch 1 is still outstanding (VM category, so the guard passes). -/
def twoOutstanding : AsyncState :=
  startFetch 2 (FetchOutcome.success g2Rows)
    (startFetch 1 (FetchOutcome.success g1Rows)
      { st := initExplorerState, inFlight := [] })

/-- Claim C1 fails as stated: with fetch g2 triggered while fetch g1 is
outstanding, delivering g1's response applies g1's payload to the result
set (the stale response is not discarded — there is no generation
check), g1's completion also clears the loading flag while g2 is still
in flight, and if g1's response arrives after g2's, the final result set
is g1's stale payload rather than g2's. -/
theorem loadData_counterexample :
    (deliver 1 twoOutstanding).st.data = g1Rows
  ∧ (deliver 1 twoOutstanding).st.loading = false
  ∧ (deliver 1 twoOutstanding).inFlight.length = 1
  ∧ (deliver 1 (deliver 2 twoOutstanding)).st.data = g1Rows := by
  refine ⟨by decide, by decide, by decide, by decide⟩

/-- Claim C1 (amended): `loadData` keeps no fetch generation — the
response of any outstanding fetch is applied unconditionally on
delivery: a successful response always replaces the result set and
clears the loading flag (even when a newer fetch is outstanding), so the
result set reflects whichever response was delivered last, stale or not;
triggering a fetch itself never changes the result set. -/
theorem loadData_last_write_wins (a : AsyncState) (id j : Nat)
    (rows : List DataRow) (out : FetchOutcome)
    (h : a.inFlight.find? (fun r => r.1 == id)
          = some (j, FetchOutcome.success rows)) :
    (deliver id a).st.data = rows
  ∧ (deliver id a).st.loading = false
  ∧ (startFetch id out a).st.data = a.st.data := by
  refine ⟨?_, ?_, ?_⟩
  · simp [deliver, h]
  · simp [deliver, h]
  · by_cases hg : loadGuardBlocks a.st <;> simp [startFetch, hg]

/-- Concrete instantiation of `loadData_last_write_wins`: delivering the
stale g1 response in the two-outstanding scenario applies g1's payload
and clears the loading flag. -/
theorem loadData_last_write_wins_witness :
    (deliver 1 twoOutstanding).st.data = g1Rows
  ∧ (deliver 1 twoOutstanding).st.loading = false :=
  ⟨(loadData_last_write_wins twoOutstanding 1 1 g1Rows
      (FetchOutcome.success g1Rows) (by decide)).1,
   (loadData_last_write_wins twoOutstanding 1 1 g1Rows
      (FetchOutcome.success g1Rows) (by decide)).2.1⟩

/-! ## Batch workflow lemmas -/

theorem runBatch_successes (verify : Verify) (freshId : Nat → String) :
    ∀ (ps : List Preset) (idx : Nat),
      (runBatch verify freshId ps idx).2.1
        = ps.filterMap (fun p => match verify p with
            | Except.ok _ => some p.ip
            | Except.error _ => none)
  | [], _ => rfl
  | p :: rest, idx => by
    cases hv : verify p <;>
      simp [runBatch, hv, runBatch_successes verify freshId rest (idx + 1)]

theorem runBatch_failures (verify : Verify) (freshId : Nat → String) :
    ∀ (ps : List Preset) (idx : Nat),
      (runBatch verify freshId ps idx).2.2
        = ps.filterMap (fun p => match verify p with
            | Except.ok _ => none
            | Except.error m => some (p.ip, m))
  | [], _ => rfl
  | p :: rest, idx => by
    cases hv : verify p <;>
      simp [runBatch, hv, runBatch_failures verify freshId rest (idx + 1)]

theorem runBatch_cluster_ips (verify : Verify) (freshId : Nat → String) :
    ∀ (ps : List Preset) (idx : Nat),
      (runBatch verify freshId ps idx).1.map (fun c => c.ip)
        = ps.filterMap (fun p => match verify p with
            | Except.ok _ => some p.ip
            | Except.error _ => none)
  | [], _ => rfl
  | p :: rest, idx => by
    cases hv : verify p <;>
      simp [runBatch, hv, presetToCluster,
        runBatch_cluster_ips verify freshId rest (idx + 1)]

theorem runBatch_verified (verify : Verify) (freshId : Nat → String) :
    ∀ (ps : List Preset) (idx : Nat),
      ∀ c ∈ (runBatch verify freshId ps idx).1, c.isVerified = true
  | [], _ => by simp [runBatch]
  | p :: rest, idx => by
    intro c hc
    have ih := runBatch_verified verify freshId rest (idx + 1)
    cases hv : verify p <;> simp [runBatch, hv] at hc
    · exact ih c hc
    · rcases hc with hc | hc
      · subst hc
        rfl
      · exact ih c hc

theorem runBatch_total (verify : Verify) (freshId : Nat → String) :
    ∀ (ps : List Preset) (idx : Nat),
      (runBatch verify freshId ps idx).2.1.length
        + (runBatch verify freshId ps idx).2.2.length = ps.length
  | [], _ => rfl
  | p :: rest, idx => by
    have ih := runBatch_total verify freshId rest (idx + 1)
    cases hv : verify p <;> simp [runBatch, hv] <;> omega

theorem runBatch_append (verify : Verify) (freshId : Nat → String) :
    ∀ (xs ys : List Preset) (idx : Nat),
      (runBatch verify freshId (xs ++ ys) idx).1
        = (runBatch verify freshId xs idx).1
          ++ (runBatch verify freshId ys (idx + xs.length)).1
  | [], ys, idx => by simp [runBatch]
  | x :: xs, ys, idx => by
    have ih := runBatch_append verify freshId xs ys (idx + 1)
    have harith : idx + 1 + xs.length = idx + (xs.length + 1) := by omega
    cases hv : verify x <;>
      simp [runBatch, hv, ih, harith]

/-! ## Claim C7 -/

/-- Claim C7 (confirmed): the batch runs every candidate independently
(successes plus itemized failures account for the whole selection, so
one failure aborts nothing), appends each successful candidate to the
connection set as a verified entry — incrementally, as the
prefix-decomposition conjunct shows — and after completion either
reports the success count with the itemized failures while keeping the
selection (when any candidate failed) or clears the selection and closes
the form (when all succeeded). -/
theorem connectSelectedPresets_spec (verify : Verify)
    (freshId : Nat → String) (s : ManagerState)
    (hne : (selectedOf s).length ≠ 0) :
    ((runBatch verify freshId (selectedOf s) 0).2.1.length
        + (runBatch verify freshId (selectedOf s) 0).2.2.length
        = (selectedOf s).length)
  ∧ ((runBatch verify freshId (selectedOf s) 0).2.2
        = (selectedOf s).filterMap (fun p => match verify p with
            | Except.ok _ => none
            | Except.error m => some (p.ip, m)))
  ∧ ((connectSelectedPresets verify freshId s).clusters
        = s.clusters ++ (runBatch verify freshId (selectedOf s) 0).1)
  ∧ ((runBatch verify freshId (selectedOf s) 0).1.map (fun c => c.ip)
        = (selectedOf s).filterMap (fun p => match verify p with
            | Except.ok _ => some p.ip
            | Except.error _ => none))
  ∧ (∀ c ∈ (runBatch verify freshId (selectedOf s) 0).1,
        c.isVerified = true)
  ∧ (0 < (runBatch verify freshId (selectedOf s) 0).2.2.length →
        (connectSelectedPresets verify freshId s).selectedPresets
            = s.selectedPresets
      ∧ (connectSelectedPresets verify freshId s).modalOpen = s.modalOpen
      ∧ (connectSelectedPresets verify freshId s).errorMsg
          = some (formatBatchError
              (runBatch verify freshId (selectedOf s) 0).2.1.length
              (runBatch verify freshId (selectedOf s) 0).2.2))
  ∧ ((runBatch verify freshId (selectedOf s) 0).2.2.length = 0 →
        (connectSelectedPresets verify freshId s).selectedPresets = []
      ∧ (connectSelectedPresets verify freshId s).modalOpen = false
      ∧ (connectSelectedPresets verify freshId s).errorMsg = none)
  ∧ (∀ (xs ys : List Preset) (idx : Nat),
        (runBatch verify freshId (xs ++ ys) idx).1
          = (runBatch verify freshId xs idx).1
            ++ (runBatch verify freshId ys (idx + xs.length)).1) := by
  have h0 : ((selectedOf s).length == 0) = false := by
    simpa using hne
  refine ⟨runBatch_total verify freshId (selectedOf s) 0,
    runBatch_failures verify freshId (selectedOf s) 0, ?_,
    runBatch_cluster_ips verify freshId (selectedOf s) 0,
    runBatch_verified verify freshId (selectedOf s) 0, ?_, ?_,
    runBatch_append verify freshId⟩
  · rw [connectSelectedPresets]
    simp only [h0, Bool.false_eq_true, if_false]
    split <;> rfl
  · intro hfail
    rw [connectSelectedPresets]
    simp only [h0, Bool.false_eq_true, if_false]
    rw [if_pos hfail]
    exact ⟨rfl, rfl, rfl⟩
  · intro hok
    rw [connectSelectedPresets]
    simp only [h0, Bool.false_eq_true, if_false]
    rw [if_neg (by omega)]
    exact ⟨rfl, rfl, rfl⟩

/-- First batch candidate: verifiable. -/
def batchPresetA : Preset :=
  { id := "1", presetType := "PE", ip := "10.0.0.1", username := "admin"
  , password := "pw", apiVersion := some "v2.0" }

/-- Second batch candidate: the verification service rejects it. -/
def batchPresetB : Preset :=
  { id := "2", presetType := "PE", ip := "10.0.0.2", username := "admin"
  , password := "pw", apiVersion := none }

/-- Third batch candidate: verifiable, declared as api v4.0. -/
def batchPresetC : Preset :=
  { id := "3", presetType := "PC", ip := "10.0.0.3", username := "admin"
  , password := "pw", apiVersion := some "v4.0" }

/-- A verification-service stub failing exactly on 10.0.0.2. -/
def batchVerifyStub : Verify := fun p =>
  if p.ip == "10.0.0.2" then Except.error "Connection failed"
  else Except.ok ("cluster-" ++ p.ip)

/-- An id generator standing in for Date.now-based temp ids. -/
def batchFreshId : Nat → String := fun n => "temp-" ++ toString n

/-- Manager state with the three candidates saved and all selected. -/
def batchManagerState : ManagerState :=
  { clusters := []
  , presets := [batchPresetA, batchPresetB, batchPresetC]
  , selectedPresets := ["1", "2", "3"]
  , verifying := false
  , errorMsg := none
  , modalOpen := true }

/-- Concrete instantiation of `connectSelectedPresets_spec`: batch of 3
with candidate 2 failing yields 2 successes and exactly 1 itemized
failure, both successful candidates land in the connection set, and the
selection is retained. -/
theorem connectSelectedPresets_spec_witness :
    (runBatch batchVerifyStub batchFreshId
        (selectedOf batchManagerState) 0).2.1.length = 2
  ∧ (runBatch batchVerifyStub batchFreshId
        (selectedOf batchManagerState) 0).2.2.length = 1
  ∧ (connectSelectedPresets batchVerifyStub batchFreshId
        batchManagerState).selectedPresets
      = batchManagerState.selectedPresets
  ∧ (connectSelectedPresets batchVerifyStub batchFreshId
        batchManagerState).clusters.map (fun c => c.ip)
      = ["10.0.0.1", "10.0.0.3"] := by
  obtain ⟨h1, h2, h3, h4, h5, h6, h7, h8⟩ :=
    connectSelectedPresets_spec batchVerifyStub batchFreshId
      batchManagerState (by decide)
  refine ⟨by decide, by decide, (h6 (by decide)).1, ?_⟩
  rw [h3]
  decide

/-! ## Claim C9 -/

/-- Claim C9 (confirmed): with two or more presets selected,
`handleAddCluster` dispatches to the batch path before the v4.0 policy
gate — whatever the form or the candidates' api versions, no policy
rejection is produced — and the batch passes every selected candidate,
v4.0 ones included, to the external verification service: each
candidate's outcome in the batch report is exactly what the service
returned for it. -/
theorem batch_bypasses_v4_gate (s : ManagerState) (form : FormState)
    (tempId : String) (h2 : 2 ≤ s.selectedPresets.length) :
    handleAddCluster s form tempId = AddAction.batchConnect (selectedOf s)
  ∧ (∀ msg : String,
      handleAddCluster s form tempId ≠ AddAction.policyReject msg)
  ∧ (∀ (verify : Verify) (freshId : Nat → String) (p : Preset),
        p ∈ selectedOf s →
        (∀ n : String, verify p = Except.ok n →
          p.ip ∈ (runBatch verify freshId (selectedOf s) 0).2.1)
      ∧ (∀ m : String, verify p = Except.error m →
          (p.ip, m) ∈ (runBatch verify freshId (selectedOf s) 0).2.2)) := by
  have hdisp : handleAddCluster s form tempId
      = AddAction.batchConnect (selectedOf s) := by
    rw [handleAddCluster, if_pos h2]
  refine ⟨hdisp, ?_, ?_⟩
  · intro msg h
    rw [hdisp] at h
    exact AddAction.noConfusion h
  · intro verify freshId p hp
    constructor
    · intro n hn
      rw [runBatch_successes]
      exact List.mem_filterMap.mpr ⟨p, hp, by simp [hn]⟩
    · intro m hm
      rw [runBatch_failures]
      exact List.mem_filterMap.mpr ⟨p, hp, by simp [hm]⟩

/-- Concrete instantiation of `batch_bypasses_v4_gate`: with three
presets selected — one of them declared v4.0 — and a form that the
single path would policy-reject, the action is the batch connect, and
the v4.0 candidate is verified by the service (its ip lands among the
successes of the stub). -/
theorem batch_bypasses_v4_gate_witness :
    handleAddCluster batchManagerState
        { ip := "10.9.9.9", username := "admin", password := "pw"
        , formType := "PE", apiVersion := some "v4.0" } "t"
      = AddAction.batchConnect [batchPresetA, batchPresetB, batchPresetC]
  ∧ batchPresetC.ip ∈
      (runBatch batchVerifyStub batchFreshId
        (selectedOf batchManagerState) 0).2.1 := by
  obtain ⟨h1, h2, h3⟩ := batch_bypasses_v4_gate batchManagerState
    { ip := "10.9.9.9", username := "admin", password := "pw"
    , formType := "PE", apiVersion := some "v4.0" } "t" (by decide)
  refine ⟨?_, ?_⟩
  · rw [h1]
    decide
  · exact (h3 batchVerifyStub batchFreshId batchPresetC (by decide)).1
      ("cluster-" ++ batchPresetC.ip) rfl

/-! ## Claim C8 -/

/-- Claim C8 (confirmed): a Capacity (Resources) export over a result
set holding both CPU-table and Memory-table rows partitions the rows by
the `table` discriminator into the two nonempty subsets, emits them as
the two named tables of one request tagged `isResources = true` with the
fixed CPU and Memory column lists and labels, and is entirely
independent of the user's column selection. -/
theorem exportRequest_resources_spec (s : ExplorerState)
    (nameProp ipProp isoDate : String)
    (hcat : s.category = Category.Resources)
    (hcpu : ∃ row ∈ s.data, getField row "table" = some (Value.str "CPU"))
    (hmem : ∃ row ∈ s.data,
        getField row "table" = some (Value.str "Memory")) :
    (∃ r : ExportRequest,
        exportRequest s nameProp ipProp isoDate = some r
      ∧ r.isResources = true
      ∧ r.cpuData = s.data.filter
          (fun row => getField row "table" == some (Value.str "CPU"))
      ∧ r.memoryData = s.data.filter
          (fun row => getField row "table" == some (Value.str "Memory"))
      ∧ r.cpuData ≠ [] ∧ r.memoryData ≠ []
      ∧ r.cpuFields = cpuFieldsFixed ∧ r.memoryFields = memoryFieldsFixed
      ∧ r.cpuFieldLabels = cpuFieldLabelsFixed
      ∧ r.memoryFieldLabels = memoryFieldLabelsFixed
      ∧ r.rows = r.cpuData ++ r.memoryData)
  ∧ (∀ sel : List String,
      exportRequest { s with selectedFields := sel } nameProp ipProp isoDate
        = exportRequest s nameProp ipProp isoDate) := by
  obtain ⟨rc, hrc, hrtc⟩ := hcpu
  obtain ⟨rm, hrm, hrtm⟩ := hmem
  have hne : s.data ≠ [] := List.ne_nil_of_mem hrc
  have hlen : (s.data.length == 0) = false := by
    simpa [List.length_eq_zero] using hne
  have hcatb : (s.category == Category.Resources) = true := by
    simp [hcat]
  constructor
  · rw [exportRequest]
    simp only [hlen, Bool.false_eq_true, if_false, hcatb, if_true]
    refine ⟨_, rfl, rfl, rfl, rfl, ?_, ?_, rfl, rfl, rfl, rfl, rfl⟩
    · exact List.ne_nil_of_mem (List.mem_filter.mpr ⟨hrc, by simp [hrtc]⟩)
    · exact List.ne_nil_of_mem (List.mem_filter.mpr ⟨hrm, by simp [hrtm]⟩)
  · intro sel
    have hcat2 :
        ((({ s with selectedFields := sel } : ExplorerState)).category
          == Category.Resources) = true := hcatb
    have hlen2 :
        ((({ s with selectedFields := sel } : ExplorerState)).data.length
          == 0) = false := hlen
    rw [exportRequest, exportRequest]
    simp only [hlen, hlen2, hcatb, hcat2, Bool.false_eq_true, if_false,
      if_true]

/-- A Capacity result row of the CPU table. -/
def cpuRowSample : DataRow :=
  [("table", Value.str "CPU"), ("hostName", Value.str "h1")]

/-- A Capacity result row of the Memory table. -/
def memoryRowSample : DataRow :=
  [("table", Value.str "Memory"), ("hostName", Value.str "h1")]

/-- Explorer state on Resources with one CPU row and one Memory row. -/
def resourcesState : ExplorerState :=
  { initExplorerState with
      category := Category.Resources,
      data := [cpuRowSample, memoryRowSample] }

/-- Concrete instantiation of `exportRequest_resources_spec`: the fixed
CPU schema is emitted and wiping the user's column selection leaves the
export request untouched. -/
theorem exportRequest_resources_spec_witness :
    (exportRequest resourcesState "N" "10.0.0.1" "2026-10-12").map
        (fun r => (r.isResources, r.cpuFields, r.memoryFields))
      = some (true, cpuFieldsFixed, memoryFieldsFixed)
  ∧ exportRequest { resourcesState with selectedFields := [] }
        "N" "10.0.0.1" "2026-10-12"
      = exportRequest resourcesState "N" "10.0.0.1" "2026-10-12" := by
  obtain ⟨⟨r, hr, hres, hcd, hmd, hcne, hmne, hcf, hmf, hcl, hml, hrows⟩,
      hind⟩ :=
    exportRequest_resources_spec resourcesState "N" "10.0.0.1" "2026-10-12"
      rfl ⟨cpuRowSample, by decide, rfl⟩ ⟨memoryRowSample, by decide, rfl⟩
  refine ⟨?_, hind []⟩
  rw [hr]
  simp [hres, hcf, hmf]

/-! ## Claim C10 -/

/-- Claim C10 (confirmed): for a non-Capacity category the export
request carries exactly the current result set in its original fetch
order, and the request is a function of the category, the result set and
the column selection only — two invocations that differ just in sort
field, sort direction or expanded entities produce identical requests. -/
theorem exportRequest_order_spec (s1 s2 : ExplorerState)
    (nameProp ipProp isoDate : String)
    (hcat : s1.category ≠ Category.Resources)
    (hdata : s1.data ≠ []) :
    (∃ r : ExportRequest,
        exportRequest s1 nameProp ipProp isoDate = some r
      ∧ r.rows = s1.data
      ∧ r.fields = s1.selectedFields)
  ∧ (s2.category = s1.category → s2.data = s1.data →
      s2.selectedFields = s1.selectedFields →
      exportRequest s2 nameProp ipProp isoDate
        = exportRequest s1 nameProp ipProp isoDate) := by
  have hlen : (s1.data.length == 0) = false := by
    simpa [List.length_eq_zero] using hdata
  have hcatb : (s1.category == Category.Resources) = false := by
    simpa using hcat
  constructor
  · rw [exportRequest]
    simp only [hlen, hcatb, Bool.false_eq_true, if_false]
    exact ⟨_, rfl, rfl, rfl⟩
  · intro hc hd hs
    rw [exportRequest, exportRequest, hc, hd, hs]

/-- Explorer state on VM with two fetched rows. -/
def vmDataState : ExplorerState :=
  { initExplorerState with data := [cpuRowSample, memoryRowSample] }

/-- Concrete instantiation of `exportRequest_order_spec`: the exported
rows are the fetch-ordered result set, and changing only the sort state
and the expanded set leaves the request identical. -/
theorem exportRequest_order_spec_witness :
    (exportRequest vmDataState "N" "10.0.0.1" "2026-10-12").map
        (fun r => r.rows) = some [cpuRowSample, memoryRowSample]
  ∧ exportRequest
        { vmDataState with
            sortField := some "hostName",
            sortDirection := SortDir.desc,
            expandedClusters := ["C1"] }
        "N" "10.0.0.1" "2026-10-12"
      = exportRequest vmDataState "N" "10.0.0.1" "2026-10-12" := by
  obtain ⟨⟨r, hr, hrows, hfields⟩, hframe⟩ :=
    exportRequest_order_spec vmDataState
      { vmDataState with
          sortField := some "hostName",
          sortDirection := SortDir.desc,
          expandedClusters := ["C1"] }
      "N" "10.0.0.1" "2026-10-12" (by decide) (by decide)
  refine ⟨?_, hframe rfl rfl rfl⟩
  rw [hr]
  simp [hrows]
  rfl

end NCM
